import Mathlib

/-!
Verification development for the dispatch core of the repository:
shallow embeddings of the circuit breaker (`src/error_handling/circuit_breaker.py`),
the retrying device scheduler (`src/agent_service/device_manager.py`), the retry
decorator (`src/error_handling/decorators.py`), the dead-letter queue
(`src/error_handling/recovery.py`) and the multi-agent handoff orchestrator
(`autorl_project/src/orchestration/agent_orchestrator.py`), together with
theorems settling the specification claims about them.

Time values (Python `time.time()` floats) are modelled as rationals; Python
truthiness of optional floats and strings is modelled explicitly where the
source relies on it.
-/

set_option autoImplicit false

namespace AutoRL

/-- Truthiness of an optional string, as Python evaluates it: `None` and the
empty string are falsy. -/
def optStrTruthy : Option String → Bool
  | none => false
  | some s => s ≠ ""

/-- Truthiness of an optional float (`None` and `0.0` are falsy). -/
def optTimeTruthy : Option ℚ → Bool
  | none => false
  | some t => t ≠ 0

/-- Python `int(x * 1000)` for a rational `x`: truncation toward zero of the
scaled value. It is computed on the numerator (`x * 1000 = (x.num * 1000) / x.den`
as an exact fraction, and `int()` truncates toward zero, which is `Int.tdiv`)
so that the function evaluates by kernel reduction. -/
def pyIntTimes1000 (q : ℚ) : ℤ := (q.num * 1000).tdiv q.den

/-- Appending to a `collections.deque` with a `maxlen`: the element goes to the
right and the oldest elements are dropped from the left once the length bound
is exceeded. -/
def dequePush {α : Type} (maxlen : ℕ) (q : List α) (a : α) : List α :=
  let q2 := q ++ [a]
  if maxlen < q2.length then q2.drop (q2.length - maxlen) else q2

/-! ### Circuit breaker (`src/src/error_handling/circuit_breaker.py`) -/

/-- States of `CircuitState` (member names as in the Python enum). -/
inductive CircuitState
  | CLOSED
  | OPEN
  | HALF_OPEN
deriving DecidableEq, Repr

/-- Embedding of `CircuitBreakerConfig`. `excluded_exceptions` is modelled as a
predicate on the exception's type name (`isinstance` against the configured
tuple). -/
structure CircuitBreakerConfig where
  failure_threshold : ℕ := 5
  success_threshold : ℕ := 2
  timeout : ℚ := 60
  window_size : ℕ := 100
  excluded_exceptions : String → Bool := fun _ => false

/-- Embedding of the mutable state of a `CircuitBreaker` instance. The call
history entries record success flag and timestamp (the exception name kept by
the Python dict is reporting-only and dropped here). -/
structure CircuitBreaker where
  name : String
  config : CircuitBreakerConfig
  state_ : CircuitState := .CLOSED
  failure_count : ℕ := 0
  success_count : ℕ := 0
  last_failure_time : Option ℚ := none
  opened_at : Option ℚ := none
  call_history : List (Bool × ℚ) := []

/-- Construction of `CircuitBreaker(name, config)`. -/
def CircuitBreaker.mkNew (name : String) (config : CircuitBreakerConfig) : CircuitBreaker :=
  { name := name, config := config }

/-- Embedding of `CircuitBreaker._transition_to_half_open`. -/
def CircuitBreaker.transition_to_half_open (cb : CircuitBreaker) : CircuitBreaker :=
  { cb with state_ := .HALF_OPEN, success_count := 0 }

/-- Embedding of `CircuitBreaker._transition_to_open` (records the trip time). -/
def CircuitBreaker.transition_to_open (cb : CircuitBreaker) (now : ℚ) : CircuitBreaker :=
  { cb with state_ := .OPEN, opened_at := some now }

/-- Embedding of `CircuitBreaker._transition_to_closed`. -/
def CircuitBreaker.transition_to_closed (cb : CircuitBreaker) : CircuitBreaker :=
  { cb with state_ := .CLOSED, failure_count := 0, success_count := 0, opened_at := none }

/-- Embedding of `CircuitBreaker._record_success`. -/
def CircuitBreaker.record_success (cb : CircuitBreaker) (now : ℚ) : CircuitBreaker :=
  let cb1 := { cb with call_history := dequePush cb.config.window_size cb.call_history (true, now) }
  if cb1.state_ = .HALF_OPEN then
    let cb2 := { cb1 with success_count := cb1.success_count + 1 }
    if cb2.config.success_threshold ≤ cb2.success_count then cb2.transition_to_closed else cb2
  else if cb1.state_ = .CLOSED then
    { cb1 with failure_count := max 0 (cb1.failure_count - 1) }
  else cb1

/-- Embedding of `CircuitBreaker._record_failure`; `excName` is the exception's
type name, checked against the configured excluded exceptions. -/
def CircuitBreaker.record_failure (cb : CircuitBreaker) (excName : String) (now : ℚ) :
    CircuitBreaker :=
  if cb.config.excluded_exceptions excName then cb
  else
    let cb1 := { cb with
      call_history := dequePush cb.config.window_size cb.call_history (false, now),
      last_failure_time := some now }
    if cb1.state_ = .HALF_OPEN then cb1.transition_to_open now
    else if cb1.state_ = .CLOSED then
      let cb2 := { cb1 with failure_count := cb1.failure_count + 1 }
      if cb2.config.failure_threshold ≤ cb2.failure_count then cb2.transition_to_open now else cb2
    else cb1

/-- Embedding of the `CircuitBreaker.state` property, which transitions
OPEN to HALF_OPEN once the cool-down has elapsed. The Python guard
`if self._opened_at and ...` makes a trip time of exactly `0.0` falsy, which is
modelled faithfully. Returns the (possibly updated) breaker and the reported
state. -/
def CircuitBreaker.stateGet (cb : CircuitBreaker) (now : ℚ) : CircuitBreaker × CircuitState :=
  let cb1 :=
    if cb.state_ = .OPEN then
      match cb.opened_at with
      | some t => if t ≠ 0 ∧ cb.config.timeout ≤ now - t then cb.transition_to_half_open else cb
      | none => cb
    else cb
  (cb1, cb1.state_)

/-- Result of one `CircuitBreaker.call`: rejected with the retry-after hint
passed to `CircuitBreakerOpenException`, returned normally, or re-raising the
wrapped function's exception. -/
inductive CallOutcome
  | rejected (retry_after : ℚ)
  | returned
  | raised (exc : String)
deriving DecidableEq, Repr

/-- Whether the wrapped function was invoked during the call. -/
def CallOutcome.invoked : CallOutcome → Bool
  | .rejected _ => false
  | .returned => true
  | .raised _ => true

/-- Embedding of `CircuitBreaker.call`. `fnExc = none` means the wrapped
function returns normally, `some e` that it raises an exception named `e`.
In the rejected branch the Python code reads `self._opened_at`, which is
necessarily set whenever the state is OPEN; the `none` fallback value `0` is
unreachable from states produced by the transition functions. -/
def CircuitBreaker.call (cb : CircuitBreaker) (now : ℚ) (fnExc : Option String) :
    CircuitBreaker × CallOutcome :=
  let s := cb.stateGet now
  if s.2 = .OPEN then
    let time_until_retry :=
      match s.1.opened_at with
      | some t => s.1.config.timeout - (now - t)
      | none => 0
    (s.1, .rejected (max 0 time_until_retry))
  else
    match fnExc with
    | none => (s.1.record_success now, .returned)
    | some e => (s.1.record_failure e now, .raised e)

/-- Fold a sequence of call outcomes (`true` = success, `false` = failure)
through the recording functions, all at time `0`; this is the closed-state trip
behaviour, which does not depend on the clock. The failure exception name used
is the generic `Exception`. -/
def CircuitBreaker.applyOutcomes (cb : CircuitBreaker) (l : List Bool) : CircuitBreaker :=
  l.foldl (fun c o => if o then c.record_success 0 else c.record_failure "Exception" 0) cb

/-- Length of the longest run of consecutive failures (`false` entries) in an
outcome sequence. -/
def maxConsecutiveFailures (l : List Bool) : ℕ :=
  (l.foldl (fun p o => if o then (0, p.2) else (p.1 + 1, max p.2 (p.1 + 1))) ((0, 0) : ℕ × ℕ)).2

/-- Reference automaton for the closed-state trip rule the code actually
implements: a failure increments a counter and trips (`none`) once the counter
reaches the threshold; a success decrements the counter by one, floored at
zero. -/
def leakyCounterRun (threshold : ℕ) : ℕ → List Bool → Option ℕ
  | c, [] => some c
  | c, true :: rest => leakyCounterRun threshold (c - 1) rest
  | c, false :: rest =>
      if threshold ≤ c + 1 then none else leakyCounterRun threshold (c + 1) rest

lemma CircuitBreaker.record_success_open {cb : CircuitBreaker} (now : ℚ)
    (h : cb.state_ = .OPEN) : (cb.record_success now).state_ = .OPEN ∧
      (cb.record_success now).config = cb.config := by
  simp [CircuitBreaker.record_success, h]

lemma CircuitBreaker.record_failure_open {cb : CircuitBreaker} (e : String) (now : ℚ)
    (h : cb.state_ = .OPEN) : (cb.record_failure e now).state_ = .OPEN ∧
      (cb.record_failure e now).config = cb.config := by
  by_cases hx : cb.config.excluded_exceptions e
  · simp [CircuitBreaker.record_failure, hx, h]
  · simp [CircuitBreaker.record_failure, hx, h]

lemma CircuitBreaker.applyOutcomes_open (l : List Bool) :
    ∀ cb : CircuitBreaker, cb.state_ = .OPEN → (cb.applyOutcomes l).state_ = .OPEN := by
  induction l with
  | nil => intro cb h; simpa [CircuitBreaker.applyOutcomes] using h
  | cons o rest ih =>
    intro cb h
    have hstep : (CircuitBreaker.applyOutcomes cb (o :: rest)) =
        CircuitBreaker.applyOutcomes
          (if o then cb.record_success 0 else cb.record_failure "Exception" 0) rest := by
      simp [CircuitBreaker.applyOutcomes]
    rw [hstep]
    cases o
    · exact ih _ (cb.record_failure_open "Exception" 0 h).1
    · exact ih _ (cb.record_success_open 0 h).1

lemma CircuitBreaker.applyOutcomes_closed_sim (l : List Bool) :
    ∀ cb : CircuitBreaker, cb.state_ = .CLOSED →
      cb.config.excluded_exceptions "Exception" = false →
      (leakyCounterRun cb.config.failure_threshold cb.failure_count l = none →
          (cb.applyOutcomes l).state_ = .OPEN) ∧
      (∀ c, leakyCounterRun cb.config.failure_threshold cb.failure_count l = some c →
          (cb.applyOutcomes l).state_ = .CLOSED ∧ (cb.applyOutcomes l).failure_count = c) := by
  induction l with
  | nil =>
    intro cb h _
    constructor
    · intro habs; simp [leakyCounterRun] at habs
    · intro c hc
      simp only [leakyCounterRun, Option.some.injEq] at hc
      subst hc
      refine ⟨?_, ?_⟩
      · simpa [CircuitBreaker.applyOutcomes] using h
      · simp [CircuitBreaker.applyOutcomes]
  | cons o rest ih =>
    intro cb h hex
    have hstep : (CircuitBreaker.applyOutcomes cb (o :: rest)) =
        CircuitBreaker.applyOutcomes
          (if o then cb.record_success 0 else cb.record_failure "Exception" 0) rest := by
      simp [CircuitBreaker.applyOutcomes]
    cases o
    · -- recorded failure
      by_cases htrip : cb.config.failure_threshold ≤ cb.failure_count + 1
      · -- the counter reaches the threshold: the breaker opens and stays open
        have hopen : (cb.record_failure "Exception" 0).state_ = .OPEN := by
          simp [CircuitBreaker.record_failure, hex, h, htrip,
            CircuitBreaker.transition_to_open]
        constructor
        · intro _
          rw [hstep]
          exact CircuitBreaker.applyOutcomes_open rest _ (by simpa using hopen)
        · intro c hc
          simp [leakyCounterRun, htrip] at hc
      · -- below threshold: closed with the counter incremented
        have hcb2 : (cb.record_failure "Exception" 0).state_ = .CLOSED ∧
            (cb.record_failure "Exception" 0).failure_count = cb.failure_count + 1 ∧
            (cb.record_failure "Exception" 0).config = cb.config := by
          simp [CircuitBreaker.record_failure, hex, h, htrip]
        have ih2 := ih (cb.record_failure "Exception" 0) hcb2.1
          (by rw [hcb2.2.2]; exact hex)
        rw [hcb2.2.2, hcb2.2.1] at ih2
        constructor
        · intro hnone
          rw [hstep]
          simp only [leakyCounterRun, htrip, if_false] at hnone
          simpa using ih2.1 hnone
        · intro c hc
          rw [hstep]
          simp only [leakyCounterRun, htrip, if_false] at hc
          simpa using ih2.2 c hc
    · -- recorded success: the counter is decremented, floored at zero
      have hcb2 : (cb.record_success 0).state_ = .CLOSED ∧
          (cb.record_success 0).failure_count = cb.failure_count - 1 ∧
          (cb.record_success 0).config = cb.config := by
        simp [CircuitBreaker.record_success, h]
      have ih2 := ih (cb.record_success 0) hcb2.1 (by rw [hcb2.2.2]; exact hex)
      rw [hcb2.2.2, hcb2.2.1] at ih2
      constructor
      · intro hnone
        rw [hstep]
        simp only [leakyCounterRun] at hnone
        simpa using ih2.1 hnone
      · intro c hc
        rw [hstep]
        simp only [leakyCounterRun] at hc
        simpa using ih2.2 c hc

/-- C2 counterexample: with the default configuration (failure threshold 5),
the outcome sequence F,F,F,F,S,F,F drives a fresh breaker from closed to open
even though its longest run of consecutive failures has length 4 < 5: the
intervening success only decrements the failure counter by one instead of
resetting it, so the trip does not require `failure_threshold` consecutive
failures. -/
theorem breaker_trips_without_five_consecutive_failures :
    ((CircuitBreaker.mkNew "svc" {}).applyOutcomes
        [false, false, false, false, true, false, false]).state_ = .OPEN ∧
    maxConsecutiveFailures [false, false, false, false, true, false, false] = 4 ∧
    ({} : CircuitBreakerConfig).failure_threshold = 5 := by
  refine ⟨by decide, by decide, rfl⟩

/-- C2 (amended): starting from the closed state, the breaker opens exactly
when a failure counter reaches `failure_threshold` (default 5), where each
recorded failure increments the counter and each recorded success decrements it
by one, floored at zero (it does not reset the counter); in particular
`failure_threshold` consecutive failures from a fresh breaker trip it, but a
success between failures only buys one extra failure before the trip. -/
theorem breaker_trip_matches_leaky_counter (cfg : CircuitBreakerConfig) (name : String)
    (l : List Bool) (hex : cfg.excluded_exceptions "Exception" = false) :
    (leakyCounterRun cfg.failure_threshold 0 l = none →
        ((CircuitBreaker.mkNew name cfg).applyOutcomes l).state_ = .OPEN) ∧
    (∀ c, leakyCounterRun cfg.failure_threshold 0 l = some c →
        ((CircuitBreaker.mkNew name cfg).applyOutcomes l).state_ = .CLOSED ∧
        ((CircuitBreaker.mkNew name cfg).applyOutcomes l).failure_count = c) :=
  CircuitBreaker.applyOutcomes_closed_sim l (CircuitBreaker.mkNew name cfg) rfl hex

/-- Witness for C2 (amended): five consecutive failures trip a fresh default
breaker, and four failures followed by one success leave it closed with
counter 3. -/
theorem breaker_trip_matches_leaky_counter_witness :
    ((CircuitBreaker.mkNew "svc" {}).applyOutcomes
        [false, false, false, false, false]).state_ = .OPEN ∧
    ((CircuitBreaker.mkNew "svc" {}).applyOutcomes
        [false, false, false, false, true]).state_ = .CLOSED := by
  constructor
  · exact (breaker_trip_matches_leaky_counter {} "svc"
      [false, false, false, false, false] rfl).1 (by decide)
  · exact ((breaker_trip_matches_leaky_counter {} "svc"
      [false, false, false, false, true] rfl).2 3 (by decide)).1

/-- C3: while the breaker is open and the cool-down has not elapsed, `call`
raises the distinguishable breaker-open error whose retry-after hint is exactly
the remaining cool-down and the wrapped function is not invoked; once the
cool-down has elapsed, the next call transitions the breaker to half-open and
is let through to the wrapped function. The hypothesis `0 < t` reflects that
trip timestamps come from the wall clock (the Python guard treats a trip time
of exactly `0.0` as unset). -/
theorem breaker_open_fails_fast (cb : CircuitBreaker) (now t : ℚ) (fnExc : Option String)
    (hs : cb.state_ = .OPEN) (ho : cb.opened_at = some t) (ht : 0 < t) :
    (now - t < cb.config.timeout →
        (cb.call now fnExc).2 = .rejected (cb.config.timeout - (now - t)) ∧
        (cb.call now fnExc).2.invoked = false) ∧
    (cb.config.timeout ≤ now - t →
        (cb.call now fnExc).2.invoked = true ∧ (cb.stateGet now).2 = .HALF_OPEN) := by
  constructor
  · intro hlt
    have hcond : ¬ (t ≠ 0 ∧ cb.config.timeout ≤ now - t) := by
      rintro ⟨-, hc⟩; exact absurd hlt (not_lt.mpr hc)
    have hsg : cb.stateGet now = (cb, .OPEN) := by
      simp [CircuitBreaker.stateGet, hs, ho, hcond]
    have hmax : max 0 (cb.config.timeout - (now - t)) = cb.config.timeout - (now - t) :=
      max_eq_right (le_of_lt (by linarith))
    constructor
    · simp [CircuitBreaker.call, hsg, ho, hmax]
    · simp [CircuitBreaker.call, hsg, CallOutcome.invoked]
  · intro hge
    have hcond : (t ≠ 0 ∧ cb.config.timeout ≤ now - t) := ⟨ne_of_gt ht, hge⟩
    have hsg : cb.stateGet now = (cb.transition_to_half_open, .HALF_OPEN) := by
      simp [CircuitBreaker.stateGet, hs, ho, hcond, CircuitBreaker.transition_to_half_open]
    constructor
    · cases fnExc with
      | none => simp [CircuitBreaker.call, hsg, CallOutcome.invoked]
      | some e => simp [CircuitBreaker.call, hsg, CallOutcome.invoked]
    · rw [hsg]

/-- Breaker instance for the C3 witness: open, tripped at time 100, default
config (cool-down 60). -/
def cbOpenExample : CircuitBreaker :=
  { name := "svc", config := {}, state_ := .OPEN, opened_at := some 100 }

/-- Witness for C3: at time 130 (cool-down not elapsed) the call is rejected
with retry-after 30 and the function is not invoked; at time 170 (cool-down
elapsed) the call is let through. -/
theorem breaker_open_fails_fast_witness :
    ((cbOpenExample.call 130 (some "Exception")).2 = .rejected 30 ∧
        (cbOpenExample.call 130 (some "Exception")).2.invoked = false) ∧
    (cbOpenExample.call 170 none).2.invoked = true := by
  have h1 := breaker_open_fails_fast cbOpenExample 130 100 (some "Exception")
    rfl rfl (by norm_num)
  have h2 := breaker_open_fails_fast cbOpenExample 170 100 none rfl rfl (by norm_num)
  have hval : cbOpenExample.config.timeout - ((130 : ℚ) - 100) = 30 := by
    show (60 : ℚ) - (130 - 100) = 30
    norm_num
  have h1c := h1.1 (by show (130 : ℚ) - 100 < 60; norm_num)
  rw [hval] at h1c
  exact ⟨h1c, (h2.2 (by show (60 : ℚ) ≤ 170 - 100; norm_num)).1⟩

/-! ### Retrying scheduler (`src/src/agent_service/device_manager.py`) -/

/-- Outcome of `AsyncDeviceManager._execute_with_retries`. `attempts_reported`
is the `attempts` entry of the returned dict; `attempts_made` counts how many
times the operation was actually started; `delays` lists the back-off sleeps
performed between attempts, in order. -/
structure RetryResult where
  success : Bool
  attempts_reported : ℕ
  attempts_made : ℕ
  delays : List ℚ
  error : Option String
deriving DecidableEq, Repr

/-- Embedding of the `while attempt <= retries` loop of
`AsyncDeviceManager._execute_with_retries`. `outcome a` is the result of the
`a`-th started attempt (`none` = success, `some e` = exception or timeout,
both caught by the loop). The structural `fuel` argument equals
`retries + 1 - attempt` on every reachable call, so the `0` branch (the loop
condition failing at entry) is unreachable from `execute_with_retries`; its
`error` field models `str(None)`. -/
def execRetryLoop (outcome : ℕ → Option String) (retries : ℕ) :
    ℕ → ℕ → ℚ → RetryResult
  | 0, attempt, _backoff =>
      { success := false, attempts_reported := attempt - 1, attempts_made := attempt,
        delays := [], error := some "None" }
  | fuel + 1, attempt, backoff =>
      match outcome (attempt + 1) with
      | none =>
          { success := true, attempts_reported := attempt + 1, attempts_made := attempt + 1,
            delays := [], error := none }
      | some e =>
          if attempt + 1 ≤ retries then
            let r := execRetryLoop outcome retries fuel (attempt + 1) (min (backoff * 2) 5)
            { r with delays := backoff :: r.delays }
          else
            { success := false, attempts_reported := attempt, attempts_made := attempt + 1,
              delays := [], error := some e }

/-- Embedding of `AsyncDeviceManager._execute_with_retries`: attempt counter
starts at 0, base back-off 0.5s, doubling and capped at 5s. -/
def execute_with_retries (outcome : ℕ → Option String) (retries : ℕ) : RetryResult :=
  execRetryLoop outcome retries (retries + 1) 0 (1/2)

lemma execRetryLoop_all_fail (outcome : ℕ → Option String)
    (hfail : ∀ a, outcome a ≠ none) (retries : ℕ) :
    ∀ fuel attempt backoff, fuel = retries + 1 - attempt → attempt ≤ retries →
      0 < backoff → backoff ≤ 5 →
      (execRetryLoop outcome retries fuel attempt backoff).success = false ∧
      (execRetryLoop outcome retries fuel attempt backoff).attempts_made = retries + 1 ∧
      (execRetryLoop outcome retries fuel attempt backoff).delays.length = retries - attempt ∧
      List.Chain' (· ≤ ·) (execRetryLoop outcome retries fuel attempt backoff).delays ∧
      (∀ d ∈ (execRetryLoop outcome retries fuel attempt backoff).delays,
        backoff ≤ d ∧ d ≤ 5) := by
  intro fuel
  induction fuel with
  | zero => intro attempt backoff hk h _ _; omega
  | succ k ih =>
    intro attempt backoff hk h hb hb5
    obtain ⟨e, he⟩ : ∃ e, outcome (attempt + 1) = some e := by
      cases hx : outcome (attempt + 1) with
      | none => exact absurd hx (hfail _)
      | some e => exact ⟨e, rfl⟩
    by_cases hcont : attempt + 1 ≤ retries
    · have hkk : k = retries + 1 - (attempt + 1) := by omega
      have hmin0 : 0 < min (backoff * 2) 5 := lt_min (by linarith) (by norm_num)
      have hmin5 : min (backoff * 2) 5 ≤ 5 := min_le_right _ _
      have hble : backoff ≤ min (backoff * 2) 5 := le_min (by linarith) hb5
      have ih2 := ih (attempt + 1) (min (backoff * 2) 5) hkk hcont hmin0 hmin5
      refine ⟨?_, ?_, ?_, ?_, ?_⟩
      · simpa [execRetryLoop, he, hcont] using ih2.1
      · simpa [execRetryLoop, he, hcont] using ih2.2.1
      · simp only [execRetryLoop, he, hcont, if_true, List.length_cons]
        rw [ih2.2.2.1]
        omega
      · simp only [execRetryLoop, he, hcont, if_true]
        refine List.chain'_cons'.mpr ⟨?_, ih2.2.2.2.1⟩
        intro b hb'
        have hmem := List.mem_of_mem_head? hb'
        exact le_trans hble (ih2.2.2.2.2 b hmem).1
      · simp only [execRetryLoop, he, hcont, if_true]
        intro d hd
        rcases List.mem_cons.mp hd with hd | hd
        · subst hd; exact ⟨le_refl _, hb5⟩
        · have := ih2.2.2.2.2 d hd
          exact ⟨le_trans hble this.1, this.2⟩
    · -- final failed attempt: the loop exits
      have : attempt = retries := by omega
      subst this
      simp [execRetryLoop, he, hcont]

/-- C4: an operation that fails (by error or timeout) on every attempt is
attempted exactly `retries + 1` times by `_execute_with_retries`, and the
back-off delays slept between consecutive attempts are non-decreasing
(base 0.5s doubling each attempt) and never exceed the 5-second cap; one delay
is slept between each pair of consecutive attempts. -/
theorem retry_budget_exact (retries : ℕ) (outcome : ℕ → Option String)
    (hfail : ∀ a, outcome a ≠ none) :
    (execute_with_retries outcome retries).attempts_made = retries + 1 ∧
    (execute_with_retries outcome retries).success = false ∧
    (execute_with_retries outcome retries).delays.length = retries ∧
    List.Chain' (· ≤ ·) (execute_with_retries outcome retries).delays ∧
    ∀ d ∈ (execute_with_retries outcome retries).delays, d ≤ 5 := by
  have h := execRetryLoop_all_fail outcome hfail retries (retries + 1) 0 (1/2)
    (by omega) (Nat.zero_le _) (by norm_num) (by norm_num)
  exact ⟨h.2.1, h.1, h.2.2.1, h.2.2.2.1, fun d hd => (h.2.2.2.2 d hd).2⟩

/-- Witness for C4: with `retries = 3` and an operation that always times out,
exactly 4 attempts are made and the delays slept are 0.5s, 1s, 2s. -/
theorem retry_budget_exact_witness :
    (execute_with_retries (fun _ => some "TimeoutError") 3).attempts_made = 4 ∧
    (execute_with_retries (fun _ => some "TimeoutError") 3).delays = [1/2, 1, 2] := by
  have h := retry_budget_exact 3 (fun _ => some "TimeoutError") (fun a => by simp)
  refine ⟨h.1, ?_⟩
  show (execRetryLoop (fun _ => some "TimeoutError") 3 4 0 (1/2)).delays = [1/2, 1, 2]
  norm_num [execRetryLoop, min_def]

/-! ### Retry decorator (`src/src/error_handling/decorators.py`, `with_retry`) -/

/-- Result of a call through the `with_retry` wrapper: normal return, an
exception propagated out (with the number of attempts made and the sleeps
performed), or the degenerate `raise last_exception` with no attempt made
(only reachable with `max_attempts = 0`). -/
inductive WithRetryResult
  | returned (attempts : ℕ) (delays : List ℚ)
  | raised (exc : String) (attempts : ℕ) (delays : List ℚ)
  | raisedNone
deriving DecidableEq, Repr

/-- Prepend a slept delay to the record of a retry run. -/
def WithRetryResult.consDelay (d : ℚ) : WithRetryResult → WithRetryResult
  | .returned a ds => .returned a (d :: ds)
  | .raised e a ds => .raised e a (d :: ds)
  | .raisedNone => .raisedNone

/-- Embedding of the `for attempt in range(1, max_attempts + 1)` loop of
`with_retry`'s wrapper. `retryOn e` models `isinstance(e, exceptions)` for the
configured retryable exception tuple: a non-matching exception is not caught
and propagates immediately. The structural `fuel` equals
`max_attempts - attempt + 1` on every reachable call. -/
def withRetryLoop (retryOn : String → Bool) (backoff max_delay : ℚ)
    (outcome : ℕ → Option String) (max_attempts : ℕ) :
    ℕ → ℕ → ℚ → WithRetryResult
  | 0, _, _ => .raisedNone
  | fuel + 1, attempt, current_delay =>
      match outcome attempt with
      | none => .returned attempt []
      | some e =>
          if retryOn e then
            if attempt = max_attempts then .raised e attempt []
            else
              (withRetryLoop retryOn backoff max_delay outcome max_attempts fuel (attempt + 1)
                (min (current_delay * backoff) max_delay)).consDelay current_delay
          else .raised e attempt []

/-- Embedding of a call through `with_retry(max_attempts, delay, backoff,
max_delay, exceptions)` applied to a function whose attempt outcomes are given
by `outcome`. -/
def with_retry (retryOn : String → Bool) (delay backoff max_delay : ℚ)
    (outcome : ℕ → Option String) (max_attempts : ℕ) : WithRetryResult :=
  withRetryLoop retryOn backoff max_delay outcome max_attempts max_attempts 1 delay

/-- C8 counterexample: the device manager's retry loop has no fatal error
classification — an operation that always raises a validation error with
`retries = 3` is attempted 4 times with 3 back-off sleeps, not aborted after
the first attempt. -/
theorem validation_error_consumes_retry_budget :
    (execute_with_retries (fun _ => some "ValidationException") 3).attempts_made = 4 ∧
    (execute_with_retries (fun _ => some "ValidationException") 3).delays.length = 3 := by
  decide

/-- C8 (amended): `_execute_with_retries` catches every exception, so a
validation error consumes the full retry budget there (`retries + 1` attempts);
only the `with_retry` decorator aborts immediately when the raised error is not
an instance of its configured retryable exception tuple — in that case the
call raises after exactly one attempt with no back-off sleep — and with the
default tuple `(Exception,)` everything, validation errors included, is
retried. -/
theorem non_matching_error_aborts_first_attempt (retries max_attempts : ℕ)
    (delay backoff max_delay : ℚ) (retryOn : String → Bool) (e : String)
    (outcome : ℕ → Option String) (h1 : 1 ≤ max_attempts) (h2 : outcome 1 = some e)
    (h3 : retryOn e = false) :
    with_retry retryOn delay backoff max_delay outcome max_attempts = .raised e 1 [] ∧
    (execute_with_retries (fun _ => some e) retries).attempts_made = retries + 1 := by
  constructor
  · obtain ⟨k, hk⟩ : ∃ k, max_attempts = k + 1 := ⟨max_attempts - 1, by omega⟩
    rw [with_retry, hk]
    simp [withRetryLoop, h2, h3]
  · exact (execRetryLoop_all_fail (fun _ => some e) (fun a => by simp) retries
      (retries + 1) 0 (1/2) (by omega) (Nat.zero_le _) (by norm_num) (by norm_num)).2.1

/-- Witness for C8 (amended): a `with_retry` wrapper configured to retry only
non-validation errors aborts a validation failure after 1 attempt, while the
device manager retries the same failure 4 times. -/
theorem non_matching_error_aborts_first_attempt_witness :
    with_retry (fun s => s ≠ "ValidationException") 1 2 60
      (fun _ => some "ValidationException") 3 = .raised "ValidationException" 1 [] ∧
    (execute_with_retries (fun _ => some "ValidationException") 3).attempts_made = 3 + 1 := by
  exact non_matching_error_aborts_first_attempt 3 3 1 2 60
    (fun s => s ≠ "ValidationException") "ValidationException"
    (fun _ => some "ValidationException") (by norm_num) rfl (by decide)

/-! ### Device selection (`AsyncDeviceManager._select_device`) -/

/-- Embedding of a device dict; absent keys are `none`. -/
structure Device where
  device_id : Option String := none
  status : Option String := none
  platform : Option String := none
deriving DecidableEq, Repr

/-- The availability test `d.get("status") in ("active", "idle")`. -/
def deviceAvailable (d : Device) : Bool :=
  d.status == some "active" || d.status == some "idle"

/-- Embedding of `AsyncDeviceManager.get_available_devices`. -/
def get_available_devices (devices : List Device) (platform : Option String) : List Device :=
  let ds := devices.filter deviceAvailable
  if optStrTruthy platform then ds.filter (fun d => d.platform == platform) else ds

/-- Embedding of `AsyncDeviceManager._select_device`: returns the updated
round-robin cursor and the selected device (`none` when no device is
returned). -/
def select_device (devices : List Device) (rr_index : ℕ) (preferred_id : Option String) :
    ℕ × Option Device :=
  if optStrTruthy preferred_id then
    match devices.find? (fun d => d.device_id == preferred_id) with
    | some d => if deviceAvailable d then (rr_index, some d) else (rr_index, none)
    | none => (rr_index, none)
  else
    let avail := get_available_devices devices none
    if avail.isEmpty then (rr_index, none)
    else
      let rr := (rr_index + 1) % avail.length
      (rr, avail[rr]?)

/-- Device used in the C9 counterexample: registered and active. -/
def d1ex : Device := { device_id := some "d1", status := some "active" }

/-- C9 counterexample: with one available device `d1` and preferred id `d2`
(not present), `_select_device` returns no device at all instead of falling
back to round-robin selection among the available devices, even though an
available device exists. -/
theorem preferred_unavailable_no_fallback :
    (select_device [d1ex] 0 (some "d2")).2 = none ∧
    get_available_devices [d1ex] none = [d1ex] := by
  decide

/-- C9 (amended): if a preferred identifier is supplied (non-empty), the first
device with that identifier is returned when its status is active or idle and
otherwise the selection returns none — there is no round-robin fallback for an
unavailable or absent preferred device; only when no preferred identifier is
supplied is the device chosen by round robin among the available devices (the
cursor advances by one modulo their number, and some available device is
returned whenever one exists). -/
theorem select_device_policy (devices : List Device) (rr_index : ℕ) (pid : Option String) :
    (∀ d, optStrTruthy pid = true →
        devices.find? (fun x => x.device_id == pid) = some d →
        (select_device devices rr_index pid).2 =
          (if deviceAvailable d then some d else none)) ∧
    (optStrTruthy pid = true →
        (∀ d ∈ devices, d.device_id = pid → deviceAvailable d = false) →
        (select_device devices rr_index pid).2 = none) ∧
    (optStrTruthy pid = false →
        get_available_devices devices none ≠ [] →
        (select_device devices rr_index pid).2 =
          (get_available_devices devices none)[(rr_index + 1) %
            (get_available_devices devices none).length]? ∧
        ((select_device devices rr_index pid).2).isSome = true) := by
  refine ⟨?_, ?_, ?_⟩
  · intro d hp hfind
    by_cases hA : deviceAvailable d <;> simp [select_device, hp, hfind, hA]
  · intro hp hnone
    cases hfind : devices.find? (fun x => x.device_id == pid) with
    | none => simp [select_device, hp, hfind]
    | some d =>
      have hd : d.device_id = pid := by
        have := List.find?_some hfind
        simpa using this
      have hmem : d ∈ devices := List.mem_of_find?_eq_some hfind
      simp [select_device, hp, hfind, hnone d hmem hd]
  · intro hp hne
    have hlen : 0 < (get_available_devices devices none).length :=
      List.length_pos.mpr hne
    have hlt : (rr_index + 1) % (get_available_devices devices none).length <
        (get_available_devices devices none).length := Nat.mod_lt _ hlen
    constructor
    · simp [select_device, hp, List.isEmpty_iff, hne]
    · simp [select_device, hp, List.isEmpty_iff, hne, List.getElem?_eq_getElem hlt]

/-- Second device for the C9 witness: registered but busy. -/
def d2busy : Device := { device_id := some "d2", status := some "busy" }

/-- Witness for C9 (amended): an available preferred device is returned; a
busy preferred device yields none; with no preferred id, round robin picks an
available device. -/
theorem select_device_policy_witness :
    (select_device [d1ex, d2busy] 0 (some "d1")).2 = some d1ex ∧
    (select_device [d1ex, d2busy] 0 (some "d2")).2 = none ∧
    (select_device [d1ex, d2busy] 3 none).2 = some d1ex := by
  refine ⟨?_, ?_, ?_⟩
  · have h := (select_device_policy [d1ex, d2busy] 0 (some "d1")).1 d1ex rfl (by decide)
    rw [h]; decide
  · exact (select_device_policy [d1ex, d2busy] 0 (some "d2")).2.1 rfl
      (by intro d hd hid; fin_cases hd <;> simp_all [d1ex, d2busy, deviceAvailable])
  · have h := ((select_device_policy [d1ex, d2busy] 3 none).2.2 rfl (by decide)).1
    rw [h]; decide

/-! ### Dead-letter queue (`src/src/error_handling/recovery.py`) -/

/-- Members of the `RecoveryStrategy` enum. -/
inductive RecoveryStrategy
  | RETRY
  | FALLBACK
  | IGNORE
  | ESCALATE
  | ROLLBACK
  | COMPENSATION
deriving DecidableEq, Repr

/-- Members of the `ErrorSeverity` enum. -/
inductive ErrorSeverity
  | INFO
  | WARNING
  | ERROR
  | CRITICAL
deriving DecidableEq, Repr

/-- The parts of an `AutoRLBaseException` the recovery layer looks at. -/
structure AutoRLError where
  message : String
  severity : ErrorSeverity := .ERROR
  recoverable : Bool := true
deriving DecidableEq, Repr

/-- Embedding of the `FailedOperation` dataclass. -/
structure FailedOperation where
  operation_id : String
  operation_name : String
  error : AutoRLError
  timestamp : ℚ
  retry_count : ℕ := 0
  max_retries : ℕ := 3
  context : List (String × String) := []
  recovery_strategy : RecoveryStrategy := .RETRY
  last_retry_time : Option ℚ := none
  resolved : Bool := false
deriving DecidableEq, Repr

/-- Configuration of `DeadLetterQueue.__init__` (the storage directory is a
file-system detail and not modelled). -/
structure DLQConfig where
  max_memory_items : ℕ := 1000
  auto_retry : Bool := true
  retry_interval : ℚ := 60

/-- State of a `DeadLetterQueue`: the bounded in-memory deque and the key set
of `_operation_index`. The index maps each id to the queue object itself
(Python aliasing), so the model keeps only the keys and reads entries through
the queue; operation ids are assumed unique (they embed a millisecond
timestamp). -/
structure DeadLetterQueue where
  config : DLQConfig
  queue : List FailedOperation := []
  index_keys : List String := []

/-- Primitive effects performed by `DeadLetterQueue.add`, in order, used to
state in which order the in-memory queue and the persistent audit log are
updated. `diskFailLogged` models the swallowed exception branch of
`_persist_operation`. -/
inductive DLQEffect
  | queueAppend (operation_id : String)
  | indexSet (operation_id : String)
  | diskWrite (operation_id : String)
  | diskFailLogged (operation_id : String)
deriving DecidableEq, Repr

/-- The operation id generated by `DeadLetterQueue.add`:
`f"{operation_name}_{int(time.time() * 1000)}"`. -/
def mkOperationId (operation_name : String) (now : ℚ) : String :=
  operation_name ++ "_" ++ toString (pyIntTimes1000 now)

/-- The `FailedOperation` record built by `DeadLetterQueue.add`. -/
def mkFailedOperation (operation_name : String) (error : AutoRLError)
    (context : List (String × String)) (recovery_strategy : RecoveryStrategy)
    (max_retries : ℕ) (now : ℚ) : FailedOperation :=
  { operation_id := mkOperationId operation_name now, operation_name := operation_name,
    error := error, timestamp := now, context := context,
    recovery_strategy := recovery_strategy, max_retries := max_retries }

/-- Embedding of `DeadLetterQueue.add` (with `_persist_operation` inlined at
its call site). `diskOk` states whether the append to the on-disk `.jsonl`
log succeeds; a disk failure is logged and swallowed. Returns the new state,
the operation id, and the trace of effects in program order. -/
def DeadLetterQueue.add (dlq : DeadLetterQueue) (operation_name : String)
    (error : AutoRLError) (context : List (String × String))
    (recovery_strategy : RecoveryStrategy) (max_retries : ℕ) (now : ℚ) (diskOk : Bool) :
    DeadLetterQueue × String × List DLQEffect :=
  let operation_id := mkOperationId operation_name now
  let failed_op : FailedOperation :=
    mkFailedOperation operation_name error context recovery_strategy max_retries now
  let dlq1 : DeadLetterQueue :=
    { dlq with
      queue := dequePush dlq.config.max_memory_items dlq.queue failed_op,
      index_keys :=
        if dlq.index_keys.contains operation_id then dlq.index_keys
        else dlq.index_keys ++ [operation_id] }
  (dlq1, operation_id,
    [DLQEffect.queueAppend operation_id, DLQEffect.indexSet operation_id] ++
      (if diskOk then [DLQEffect.diskWrite operation_id]
       else [DLQEffect.diskFailLogged operation_id]))

/-- The per-operation test of `DeadLetterQueue.get_retryable_operations`:
unresolved, retry budget not exhausted, strategy `RETRY`, and the cool-down
since the last retry elapsed (a last-retry time of `None` — or the falsy
`0.0` — skips the cool-down check). -/
def retryablePred (cfg : DLQConfig) (now : ℚ) (op : FailedOperation) : Bool :=
  !op.resolved && op.retry_count < op.max_retries &&
    op.recovery_strategy == .RETRY &&
    (match op.last_retry_time with
     | none => true
     | some t => t == 0 || cfg.retry_interval ≤ now - t)

/-- Embedding of `DeadLetterQueue.get_retryable_operations`. -/
def DeadLetterQueue.get_retryable_operations (dlq : DeadLetterQueue) (now : ℚ) :
    List FailedOperation :=
  dlq.queue.filter (retryablePred dlq.config now)

/-- Embedding of `DeadLetterQueue.retry_operation` acting on one operation
object: the retry counter and last-retry time are updated before the retry
function runs; on success the operation is marked resolved (through the index,
which aliases the same object). `succ` is whether `retry_func` returns without
raising. -/
def retryOperationUpdate (op : FailedOperation) (now : ℚ) (succ : Bool) : FailedOperation :=
  let op1 := { op with retry_count := op.retry_count + 1, last_retry_time := some now }
  if succ then { op1 with resolved := true } else op1

/-- Embedding of one pass of the auto-retry loop of
`DeadLetterQueue.start_auto_retry`: the retryable list is computed once
against the pre-pass state, then each selected operation object is retried
once, in place. `outcome op` is whether `retry_func` succeeds on `op` (the
operation as passed to `retry_func`, after its counter update). -/
def DeadLetterQueue.autoRetrySweep (dlq : DeadLetterQueue) (now : ℚ)
    (outcome : FailedOperation → Bool) : DeadLetterQueue :=
  { dlq with
    queue := dlq.queue.map (fun op =>
      if retryablePred dlq.config now op then
        retryOperationUpdate op now
          (outcome { op with retry_count := op.retry_count + 1, last_retry_time := some now })
      else op) }

/-- Embedding of `DeadLetterQueue.mark_resolved` (the indexed object is the
queue entry with that id). -/
def DeadLetterQueue.mark_resolved (dlq : DeadLetterQueue) (operation_id : String) :
    DeadLetterQueue :=
  if dlq.index_keys.contains operation_id then
    { dlq with
      queue := dlq.queue.map (fun op =>
        if op.operation_id == operation_id then { op with resolved := true } else op) }
  else dlq

/-- Embedding of `DeadLetterQueue.clear_resolved`. -/
def DeadLetterQueue.clear_resolved (dlq : DeadLetterQueue) : DeadLetterQueue :=
  let unresolved := dlq.queue.filter (fun op => !op.resolved)
  { dlq with queue := unresolved, index_keys := unresolved.map (·.operation_id) }

/-- The externally triggered operations on a dead-letter queue that the
recovery layer performs. -/
inductive DLQEvent
  | add (operation_name : String) (error : AutoRLError) (context : List (String × String))
      (recovery_strategy : RecoveryStrategy) (max_retries : ℕ) (now : ℚ) (diskOk : Bool)
  | sweep (now : ℚ) (outcome : FailedOperation → Bool)
  | markResolved (operation_id : String)
  | clearResolved

/-- One step of the dead-letter queue transition system. -/
def DeadLetterQueue.step (dlq : DeadLetterQueue) : DLQEvent → DeadLetterQueue
  | .add name err ctx strat mr now diskOk => (dlq.add name err ctx strat mr now diskOk).1
  | .sweep now outcome => dlq.autoRetrySweep now outcome
  | .markResolved operation_id => dlq.mark_resolved operation_id
  | .clearResolved => dlq.clear_resolved

/-- Run a sequence of events from a freshly constructed queue. -/
def DeadLetterQueue.run (cfg : DLQConfig) (events : List DLQEvent) : DeadLetterQueue :=
  events.foldl DeadLetterQueue.step { config := cfg }

lemma mem_dequePush {α : Type} {maxlen : ℕ} {q : List α} {a x : α}
    (h : x ∈ dequePush maxlen q a) : x ∈ q ∨ x = a := by
  simp only [dequePush] at h
  split_ifs at h
  · simpa using List.mem_of_mem_drop h
  · simpa using h

lemma self_mem_dequePush {α : Type} {maxlen : ℕ} (hm : 0 < maxlen) (q : List α) (a : α) :
    a ∈ dequePush maxlen q a := by
  simp only [dequePush]
  split_ifs with hl
  · have hk : (q ++ [a]).length - maxlen ≤ q.length := by
      simp only [List.length_append, List.length_singleton]
      omega
    rw [List.drop_append_of_le_length hk]
    simp
  · simp

/-- Retry-count invariant of the dead-letter queue. -/
def retryCountInv (dlq : DeadLetterQueue) : Prop :=
  ∀ op ∈ dlq.queue, op.retry_count ≤ op.max_retries

lemma retryOperationUpdate_counts (op : FailedOperation) (now : ℚ) (succ : Bool) :
    (retryOperationUpdate op now succ).retry_count = op.retry_count + 1 ∧
    (retryOperationUpdate op now succ).max_retries = op.max_retries := by
  unfold retryOperationUpdate
  cases succ <;> simp

lemma retryCountInv_step {dlq : DeadLetterQueue} (hinv : retryCountInv dlq) (ev : DLQEvent) :
    retryCountInv (dlq.step ev) := by
  cases ev with
  | add name err ctx strat mr now diskOk =>
    intro op hop
    simp only [DeadLetterQueue.step, DeadLetterQueue.add] at hop
    rcases mem_dequePush hop with h | h
    · exact hinv op h
    · subst h; exact Nat.zero_le _
  | sweep now outcome =>
    intro op hop
    simp only [DeadLetterQueue.step, DeadLetterQueue.autoRetrySweep, List.mem_map] at hop
    obtain ⟨op0, hop0, heq⟩ := hop
    by_cases hr : retryablePred dlq.config now op0 = true
    · have hlt : op0.retry_count < op0.max_retries := by
        have h2 := hr
        unfold retryablePred at h2
        simp only [Bool.and_eq_true, decide_eq_true_eq] at h2
        exact h2.1.1.2
      rw [if_pos hr] at heq
      subst heq
      have hcnt := retryOperationUpdate_counts op0 now
        (outcome { op0 with retry_count := op0.retry_count + 1, last_retry_time := some now })
      rw [hcnt.1, hcnt.2]
      omega
    · rw [if_neg hr] at heq
      subst heq
      exact hinv op0 hop0
  | markResolved operation_id =>
    intro op hop
    simp only [DeadLetterQueue.step, DeadLetterQueue.mark_resolved] at hop
    by_cases hc : dlq.index_keys.contains operation_id
    · simp only [hc, if_true, List.mem_map] at hop
      obtain ⟨op0, hop0, heq⟩ := hop
      by_cases hid : op0.operation_id == operation_id
      · rw [if_pos hid] at heq; subst heq; exact hinv op0 hop0
      · rw [if_neg hid] at heq; subst heq; exact hinv op0 hop0
    · simp only [hc, if_false] at hop
      exact hinv op hop
  | clearResolved =>
    intro op hop
    simp only [DeadLetterQueue.step, DeadLetterQueue.clear_resolved] at hop
    exact hinv op (List.mem_of_mem_filter hop)

lemma retryCountInv_foldl (events : List DLQEvent) :
    ∀ dlq, retryCountInv dlq → retryCountInv (events.foldl DeadLetterQueue.step dlq) := by
  induction events with
  | nil => intro dlq h; simpa using h
  | cons ev rest ih =>
    intro dlq h
    rw [List.foldl_cons]
    exact ih _ (retryCountInv_step h ev)

lemma retryCountInv_run (cfg : DLQConfig) (events : List DLQEvent) :
    retryCountInv (DeadLetterQueue.run cfg events) :=
  retryCountInv_foldl events _ (fun op hop => absurd hop (by simp))

/-- C6: after any sequence of recovery-layer events (recording failures,
auto-retry sweeps, resolutions, cleanups) on a fresh dead-letter queue, every
stored operation's `retry_count` is at most its `max_retries`; and an
operation whose budget is exhausted is not selected by
`get_retryable_operations` and is left untouched by any further auto-retry
sweep. -/
theorem dlq_retry_count_bounded (cfg : DLQConfig) (events : List DLQEvent)
    (op : FailedOperation) (hop : op ∈ (DeadLetterQueue.run cfg events).queue) :
    op.retry_count ≤ op.max_retries ∧
    (op.max_retries ≤ op.retry_count →
      (∀ now, op ∉ (DeadLetterQueue.run cfg events).get_retryable_operations now) ∧
      (∀ now outcome,
        op ∈ ((DeadLetterQueue.run cfg events).autoRetrySweep now outcome).queue)) := by
  refine ⟨retryCountInv_run cfg events op hop, ?_⟩
  intro hmax
  have hnotr : ∀ now, retryablePred (DeadLetterQueue.run cfg events).config now op = false := by
    intro now
    unfold retryablePred
    have : ¬ op.retry_count < op.max_retries := by omega
    simp [this]
  constructor
  · intro now hmem
    unfold DeadLetterQueue.get_retryable_operations at hmem
    have := List.of_mem_filter hmem
    rw [hnotr now] at this
    exact absurd this (by simp)
  · intro now outcome
    unfold DeadLetterQueue.autoRetrySweep
    simp only [List.mem_map]
    exact ⟨op, hop, by rw [hnotr now]; simp⟩

/-- Concrete error for the C5/C6 witnesses. -/
def errEx : AutoRLError := { message := "boom" }

/-- The stored operation after one `add` at time 1 and one failed sweep at
time 2. -/
def opEx : FailedOperation :=
  { operation_id := "op_1000", operation_name := "op", error := errEx, timestamp := 1,
    retry_count := 1, last_retry_time := some 2 }

/-- Witness for C6: after recording one failure and one failed auto-retry
sweep, the stored operation has `retry_count` 1 ≤ 3 (applied through the C6
theorem at this concrete run). -/
theorem dlq_retry_count_bounded_witness : opEx.retry_count ≤ opEx.max_retries := by
  exact (dlq_retry_count_bounded {} [.add "op" errEx [] .RETRY 3 1 true,
    .sweep 2 (fun _ => false)] opEx (by decide)).1

/-- C5 counterexample: in `DeadLetterQueue.add` the in-memory queue and index
are updated first and the audit record is persisted only afterwards — the
first effect of a concrete `add` is the queue append and the disk write comes
last — and when the disk write fails the error is swallowed, leaving the
operation in the in-memory queue with no persisted record at all. -/
theorem dlq_add_persists_after_queue_update :
    (({ config := {} } : DeadLetterQueue).add "op" errEx [] .RETRY 3 1 true).2.2 =
      [DLQEffect.queueAppend "op_1000", DLQEffect.indexSet "op_1000",
        DLQEffect.diskWrite "op_1000"] ∧
    (∃ op ∈ ((({ config := {} } : DeadLetterQueue).add "op" errEx [] .RETRY 3 1 false).1).queue,
        op.operation_id = "op_1000") ∧
    DLQEffect.diskWrite "op_1000" ∉
      (({ config := {} } : DeadLetterQueue).add "op" errEx [] .RETRY 3 1 false).2.2 := by
  refine ⟨by decide, ⟨mkFailedOperation "op" errEx [] .RETRY 3 1, by decide, by decide⟩,
    by decide⟩

/-- C5 (amended): for every call to `DeadLetterQueue.add`, the in-memory queue
is updated first (the head of the effect trace is the queue append), the disk
write happens strictly afterwards and only when the disk append succeeds — a
persistence failure is logged and swallowed — and the operation is present in
the in-memory queue afterwards regardless of whether the audit record was
written. -/
theorem dlq_add_effect_order (dlq : DeadLetterQueue) (name : String) (err : AutoRLError)
    (ctx : List (String × String)) (strat : RecoveryStrategy) (mr : ℕ) (now : ℚ)
    (diskOk : Bool) (hm : 0 < dlq.config.max_memory_items) :
    ((dlq.add name err ctx strat mr now diskOk).2.2.head? =
        some (DLQEffect.queueAppend (dlq.add name err ctx strat mr now diskOk).2.1)) ∧
    ((DLQEffect.diskWrite (dlq.add name err ctx strat mr now diskOk).2.1 ∈
        (dlq.add name err ctx strat mr now diskOk).2.2) ↔ diskOk = true) ∧
    (∃ op ∈ ((dlq.add name err ctx strat mr now diskOk).1).queue,
        op.operation_id = (dlq.add name err ctx strat mr now diskOk).2.1) := by
  refine ⟨by simp [DeadLetterQueue.add], ?_, ?_⟩
  · cases diskOk <;> simp [DeadLetterQueue.add]
  · refine ⟨mkFailedOperation name err ctx strat mr now, ?_, rfl⟩
    show _ ∈ dequePush dlq.config.max_memory_items dlq.queue _
    exact self_mem_dequePush hm dlq.queue _

/-- Witness for C5 (amended): a concrete `add` on a default-configured queue
has the queue append as its first effect and, with the disk available, the
audit write present later in the trace. -/
theorem dlq_add_effect_order_witness :
    ((({ config := {} } : DeadLetterQueue).add "op2" errEx [] .RETRY 3 2 true).2.2.head? =
        some (DLQEffect.queueAppend
          ((({ config := {} } : DeadLetterQueue).add "op2" errEx [] .RETRY 3 2 true).2.1))) ∧
    DLQEffect.diskWrite ((({ config := {} } : DeadLetterQueue).add
        "op2" errEx [] .RETRY 3 2 true).2.1) ∈
      (({ config := {} } : DeadLetterQueue).add "op2" errEx [] .RETRY 3 2 true).2.2 := by
  have h := dlq_add_effect_order { config := {} } "op2" errEx [] .RETRY 3 2 true
    (by norm_num)
  exact ⟨h.1, h.2.1.mpr rfl⟩

/-! ### Multi-agent handoff orchestrator
(`src/autorl_project/src/orchestration/agent_orchestrator.py`) -/

/-- One action dict of an action plan; absent keys are `none`. An all-`none`
step models the empty dict (the only falsy dict this embedding can express). -/
structure ActionStep where
  action : Option String := none
  target_id : Option String := none
  value : Option String := none
deriving DecidableEq, Repr

/-- The workflow context dict threaded through the agents, with the keys this
orchestrator reads and writes. `state` is set to `init` at creation and never
changed by any of these agents. -/
structure WorkflowContext where
  instruction : String
  driver : Option String
  state : String := "init"
  ui_state : Option String := none
  action_plan : Option (List ActionStep) := none
  handoff_to : Option String := none
  execution_success : Option Bool := none
  execution_error : Option String := none
  failed_action : Option ActionStep := none
deriving DecidableEq, Repr

/-- The visual-perception collaborator: `capture_and_analyze(driver)` and
`get_element_locator(ui_state, target_id)` (a locator is the pair indexed as
`locator[0]`, `locator[1]`; `none` models a falsy locator). -/
structure VisualPerception where
  capture_and_analyze : Option String → String
  get_element_locator : Option String → Option String → Option (String × String)

/-- The LLM-planner collaborator. A returned empty list models a falsy plan
(`None` or `[]`). -/
structure LLMPlanner where
  generate_action_plan : String → String → List ActionStep
  reflect_and_correct : String → Option String → ActionStep → String → List ActionStep

/-- The primitive action executor; each call returns `none` on success or
`some e` when it raises an exception rendered as `e`. -/
structure ActionExecutor where
  type_text : String → String → Option String → Option String
  tap : String → String → Option String
  wait_for_displayed : String → String → Option String

/-- Truthiness of an optional action step: `None` is falsy and the all-`none`
step models the falsy empty dict. -/
def stepTruthy : Option ActionStep → Bool
  | none => false
  | some s => !(s.action = none ∧ s.target_id = none ∧ s.value = none)

/-- Embedding of `ExecutionAgent._execute_actions`: walks the plan in order;
a step whose element locator is missing is skipped with a warning and the walk
continues; otherwise the typed executor call for the step's action type runs
and its exception (if any) aborts the walk. A `sleep` step or an unrecognized
action type performs no executor call. Returns `none` on completion or
`some e` for the raised exception. -/
def execute_actions (vp : VisualPerception) (ex : ActionExecutor)
    (action_plan : List ActionStep) (ui_state : Option String) : Option String :=
  match action_plan with
  | [] => none
  | step :: rest =>
    match vp.get_element_locator ui_state step.target_id with
    | none => execute_actions vp ex rest ui_state
    | some locator =>
      let res : Option String :=
        if step.action = some "type_text" then ex.type_text locator.1 locator.2 step.value
        else if step.action = some "tap" then ex.tap locator.1 locator.2
        else if step.action = some "wait_for_displayed" then
          ex.wait_for_displayed locator.1 locator.2
        else none
      match res with
      | some e => some e
      | none => execute_actions vp ex rest ui_state

/-- Embedding of `PerceptionAgent.execute`: raises when the driver is falsy,
otherwise stores the captured UI state and hands off to planning. -/
def perception_execute (vp : VisualPerception) (ctx : WorkflowContext) :
    Except String WorkflowContext :=
  if optStrTruthy ctx.driver then
    .ok { ctx with ui_state := some (vp.capture_and_analyze ctx.driver),
                   handoff_to := some "planning" }
  else .error "No driver in context"

/-- Embedding of `PlanningAgent.execute`: raises when the instruction or the
UI state is falsy; stores the generated plan; hands off to reflection when the
plan is empty and to execution otherwise. -/
def planning_execute (lp : LLMPlanner) (ctx : WorkflowContext) :
    Except String WorkflowContext :=
  match ctx.ui_state with
  | some ui =>
    if ctx.instruction ≠ "" ∧ ui ≠ "" then
      let action_plan := lp.generate_action_plan ctx.instruction ui
      let ctx1 := { ctx with action_plan := some action_plan }
      if action_plan.isEmpty then .ok { ctx1 with handoff_to := some "reflection" }
      else .ok { ctx1 with handoff_to := some "execution" }
    else .error "Missing instruction or ui_state in context"
  | none => .error "Missing instruction or ui_state in context"

/-- Embedding of `ExecutionAgent.execute`: raises when the plan is falsy; on
success of every action marks `execution_success` and ends the workflow
(`handoff_to = None`); on any action failure records the error message and the
LAST action of the plan as `failed_action` and hands off to reflection. -/
def execution_execute (vp : VisualPerception) (ex : ActionExecutor)
    (ctx : WorkflowContext) : Except String WorkflowContext :=
  match ctx.action_plan with
  | none => .error "No action_plan in context"
  | some plan =>
    if plan.isEmpty then .error "No action_plan in context"
    else
      match execute_actions vp ex plan ctx.ui_state with
      | none => .ok { ctx with execution_success := some true, handoff_to := none }
      | some e =>
        .ok { ctx with execution_success := some false, execution_error := some e,
                       failed_action := plan.getLast?, handoff_to := some "reflection" }

/-- Embedding of `ReflectionAgent.execute`: with no (truthy) failed action the
workflow ends; otherwise the planner is asked for a corrective plan, which
replaces the action plan and hands back to execution when truthy, and ends the
workflow otherwise. -/
def reflection_execute (lp : LLMPlanner) (ctx : WorkflowContext) :
    Except String WorkflowContext :=
  match ctx.failed_action with
  | some fa =>
    if stepTruthy (some fa) then
      let corrective := lp.reflect_and_correct ctx.instruction ctx.ui_state fa
        (ctx.execution_error.getD "")
      if corrective.isEmpty then .ok { ctx with handoff_to := none }
      else .ok { ctx with action_plan := some corrective, handoff_to := some "execution" }
    else .ok { ctx with handoff_to := none }
  | none => .ok { ctx with handoff_to := none }

/-- The orchestrator's agent table (`perception`, `planning`, `execution`,
`reflection`; there is no recovery agent in this orchestrator). `none` models
an unknown agent name, on which the loop logs an error and breaks. -/
def run_agent (vp : VisualPerception) (lp : LLMPlanner) (ex : ActionExecutor)
    (name : String) (ctx : WorkflowContext) : Option (Except String WorkflowContext) :=
  if name = "perception" then some (perception_execute vp ctx)
  else if name = "planning" then some (planning_execute lp ctx)
  else if name = "execution" then some (execution_execute vp ex ctx)
  else if name = "reflection" then some (reflection_execute lp ctx)
  else none

/-- Embedding of the handoff loop of `AgentOrchestrator.execute_workflow`
(`while current_agent_name and handoff_count < max_handoffs`). An exception
raised by an agent propagates out of the loop (`Except.error`); otherwise the
final context and the number of handoffs performed are returned. The
structural `fuel` equals `max_handoffs - count + 1` on every reachable call,
so the `0` branch is unreachable from `execute_workflow`. -/
def workflow_loop (vp : VisualPerception) (lp : LLMPlanner) (ex : ActionExecutor)
    (max_handoffs : ℕ) : ℕ → String → ℕ → WorkflowContext →
    Except String (WorkflowContext × ℕ)
  | 0, _, count, ctx => .ok (ctx, count)
  | fuel + 1, current, count, ctx =>
    if current ≠ "" ∧ count < max_handoffs then
      match run_agent vp lp ex current ctx with
      | none => .ok (ctx, count)
      | some (.error e) => .error e
      | some (.ok ctx1) =>
        match ctx1.handoff_to with
        | some nxt =>
          if nxt ≠ "" then workflow_loop vp lp ex max_handoffs fuel nxt (count + 1) ctx1
          else .ok (ctx1, count)
        | none => .ok (ctx1, count)
    else .ok (ctx, count)

/-- Embedding of `AgentOrchestrator.execute_workflow`, including its default
handoff budget of 10. -/
def execute_workflow (vp : VisualPerception) (lp : LLMPlanner) (ex : ActionExecutor)
    (driver : Option String) (instruction : String) (max_handoffs : ℕ := 10) :
    Except String (WorkflowContext × ℕ) :=
  workflow_loop vp lp ex max_handoffs (max_handoffs + 1) "perception" 0
    { instruction := instruction, driver := driver }

/-- Number of handoffs performed by a workflow run (0 when an agent raised). -/
def handoffsOf : Except String (WorkflowContext × ℕ) → ℕ
  | .error _ => 0
  | .ok (_, n) => n

/-- Final context of a workflow run, when no agent raised. -/
def finalCtx : Except String (WorkflowContext × ℕ) → Option WorkflowContext
  | .error _ => none
  | .ok (c, _) => some c

lemma workflow_loop_count_le (vp : VisualPerception) (lp : LLMPlanner) (ex : ActionExecutor)
    (budget : ℕ) :
    ∀ fuel current count ctx, count ≤ budget →
      handoffsOf (workflow_loop vp lp ex budget fuel current count ctx) ≤ budget := by
  intro fuel
  induction fuel with
  | zero =>
    intro current count ctx h
    simpa [workflow_loop, handoffsOf] using h
  | succ k ih =>
    intro current count ctx h
    rw [workflow_loop]
    by_cases hc : current ≠ "" ∧ count < budget
    · rw [if_pos hc]
      split
      · simpa [handoffsOf] using h
      · simp [handoffsOf]
      · split
        · split_ifs with hn
          · exact ih _ _ _ hc.2
          · simpa [handoffsOf] using h
        · simpa [handoffsOf] using h
    · rw [if_neg hc]
      simpa [handoffsOf] using h

/-- C1 (amended): the orchestrator's handoff loop performs at most the
configured handoff budget of stage transitions and then terminates (the
returned handoff count never exceeds the budget, and a raised agent exception
also ends the walk); the budget's default in this orchestrator is 10, and
hitting it does not force a failed terminal state or a "handoff budget
exceeded" error — the loop merely logs a warning and returns the context
as it stands. -/
theorem handoff_budget_bound (vp : VisualPerception) (lp : LLMPlanner) (ex : ActionExecutor)
    (driver : Option String) (instruction : String) (budget : ℕ) :
    handoffsOf (execute_workflow vp lp ex driver instruction budget) ≤ budget :=
  workflow_loop_count_le vp lp ex budget (budget + 1) "perception" 0
    { instruction := instruction, driver := driver } (Nat.zero_le _)

/-- Perception collaborator for the C1/C7 counterexamples: every element
resolves to a locator. -/
def vpLoop : VisualPerception :=
  { capture_and_analyze := fun _ => "ui",
    get_element_locator := fun _ tid => some ("id", tid.getD "") }

/-- A tap action on element `btn`. -/
def tapStep : ActionStep := { action := some "tap", target_id := some "btn" }

/-- Planner for the C1 counterexample: always produces (and corrects to) the
single-tap plan, so execution and reflection hand off to each other forever. -/
def lpLoop : LLMPlanner :=
  { generate_action_plan := fun _ _ => [tapStep],
    reflect_and_correct := fun _ _ _ _ => [tapStep] }

/-- Executor for the C1 counterexample: every tap raises. -/
def exFail : ActionExecutor :=
  { type_text := fun _ _ _ => none, tap := fun _ _ => some "boom",
    wait_for_displayed := fun _ _ => none }

/-- The C1 counterexample run, at the orchestrator's default handoff budget. -/
def wfBudgetRun : Except String (WorkflowContext × ℕ) :=
  execute_workflow vpLoop lpLoop exFail (some "driver") "login"

/-- C1 counterexample: with collaborators that make execution and reflection
hand off to each other forever, the run at the orchestrator's default budget
stops after 10 handoffs — the default is 10, not the claimed 15 — and the
returned context is NOT forced to a failed terminal state and carries no
"handoff budget exceeded" error: its `state` is still `init`, its error is the
execution error `boom`, and a further handoff (to `execution`) is still
pending. -/
theorem budget_hit_does_not_force_failed :
    handoffsOf wfBudgetRun = 10 ∧
    (finalCtx wfBudgetRun).map (·.state) = some "init" ∧
    (finalCtx wfBudgetRun).map (·.execution_error) = some (some "boom") ∧
    (finalCtx wfBudgetRun).bind (·.handoff_to) = some "execution" := by
  decide

/-- Perception collaborator for C7: every element resolves. -/
def vpC7 : VisualPerception :=
  { capture_and_analyze := fun _ => "ui",
    get_element_locator := fun _ tid => some ("id", tid.getD "") }

/-- First plan step for C7: tapping `b1`, which fails. -/
def stepA : ActionStep := { action := some "tap", target_id := some "b1" }

/-- Second plan step for C7: tapping `b2`, which would succeed. -/
def stepB : ActionStep := { action := some "tap", target_id := some "b2" }

/-- Executor for C7: tapping `b1` raises, everything else succeeds. -/
def exC7 : ActionExecutor :=
  { type_text := fun _ _ _ => none,
    tap := fun _ v => if v = "b1" then some "boom" else none,
    wait_for_displayed := fun _ _ => none }

/-- Context entering the execution stage in the C7 counterexample. -/
def ctxC7 : WorkflowContext :=
  { instruction := "i", driver := some "d", ui_state := some "ui",
    action_plan := some [stepA, stepB] }

/-- C7 counterexample: when the first action of the two-step plan fails, the
execution agent hands off to `reflection` — not to a recovery stage (this
orchestrator has none) — and records the LAST action of the plan (`stepB`,
which was never executed) as `failed_action` instead of the failing action
`stepA`. -/
theorem execution_failure_hands_to_reflection_with_last_action :
    (execution_execute vpC7 exC7 ctxC7).toOption.map (·.handoff_to) =
      some (some "reflection") ∧
    (execution_execute vpC7 exC7 ctxC7).toOption.map (·.failed_action) =
      some (some stepB) ∧
    stepB ≠ stepA ∧
    execute_actions vpC7 exC7 [stepA] (some "ui") = some "boom" ∧
    execute_actions vpC7 exC7 [stepB] (some "ui") = none := by
  decide

/-- C7 (amended): in the execution stage, if every action of the current plan
succeeds the agent marks the execution successful and ends the workflow
(completed); if any action fails, it hands off to `reflection` (there is no
recovery agent in this orchestrator) and the context captures the raised error
message together with the LAST action of the plan — not necessarily the
failing one — as `failed_action`. -/
theorem execution_stage_transition (vp : VisualPerception) (ex : ActionExecutor)
    (ctx : WorkflowContext) (plan : List ActionStep)
    (hplan : ctx.action_plan = some plan) (hne : plan ≠ []) :
    (execute_actions vp ex plan ctx.ui_state = none →
      execution_execute vp ex ctx =
        .ok { ctx with execution_success := some true, handoff_to := none }) ∧
    (∀ e, execute_actions vp ex plan ctx.ui_state = some e →
      execution_execute vp ex ctx =
        .ok { ctx with
                execution_success := some false, execution_error := some e,
                failed_action := plan.getLast?, handoff_to := some "reflection" }) := by
  have hne' : plan.isEmpty = false := by
    cases plan with
    | nil => exact absurd rfl hne
    | cons a l => rfl
  constructor
  · intro hrun
    simp [execution_execute, hplan, hne', hrun]
  · intro e hrun
    simp [execution_execute, hplan, hne', hrun]

/-- Context whose single-step plan succeeds, for the C7 witness. -/
def ctxC7ok : WorkflowContext :=
  { instruction := "i", driver := some "d", ui_state := some "ui",
    action_plan := some [stepB] }

/-- Witness for C7 (amended): the failing two-step plan hands off to
reflection recording the last step, and the succeeding one-step plan ends the
workflow successfully. -/
theorem execution_stage_transition_witness :
    execution_execute vpC7 exC7 ctxC7 =
      .ok { ctxC7 with
              execution_success := some false, execution_error := some "boom",
              failed_action := [stepA, stepB].getLast?, handoff_to := some "reflection" } ∧
    execution_execute vpC7 exC7 ctxC7ok =
      .ok { ctxC7ok with execution_success := some true, handoff_to := none } := by
  constructor
  · exact (execution_stage_transition vpC7 exC7 ctxC7 [stepA, stepB] rfl
      (by decide)).2 "boom" (by decide)
  · exact (execution_stage_transition vpC7 exC7 ctxC7ok [stepB] rfl
      (by decide)).1 (by decide)

lemma execute_actions_all_missing (vp : VisualPerception) (ex : ActionExecutor)
    (ui : Option String) :
    ∀ plan : List ActionStep,
      (∀ step ∈ plan, vp.get_element_locator ui step.target_id = none) →
      execute_actions vp ex plan ui = none := by
  intro plan
  induction plan with
  | nil => intro _; rfl
  | cons s rest ih =>
    intro h
    rw [execute_actions, h s (List.mem_cons_self s rest)]
    exact ih (fun st hst => h st (List.mem_cons_of_mem s hst))

/-- C10: an action whose target element has no locator in the current UI state
is silently skipped, so a workflow whose (non-empty) plan consists entirely of
actions with missing locators runs to the end of the execution stage with
`execution_success` reported `true`, no error recorded, and the workflow
terminating normally after the 2 handoffs perception → planning → execution. -/
theorem missing_locators_complete_successfully (vp : VisualPerception) (lp : LLMPlanner)
    (ex : ActionExecutor) (driver : Option String) (instruction : String)
    (plan : List ActionStep)
    (hd : optStrTruthy driver = true)
    (hi : instruction ≠ "")
    (hu : vp.capture_and_analyze driver ≠ "")
    (hp : lp.generate_action_plan instruction (vp.capture_and_analyze driver) = plan)
    (hne : plan ≠ [])
    (hloc : ∀ step ∈ plan,
      vp.get_element_locator (some (vp.capture_and_analyze driver)) step.target_id = none) :
    handoffsOf (execute_workflow vp lp ex driver instruction) = 2 ∧
    (finalCtx (execute_workflow vp lp ex driver instruction)).map (·.execution_success) =
      some (some true) ∧
    (finalCtx (execute_workflow vp lp ex driver instruction)).map (·.execution_error) =
      some none ∧
    (finalCtx (execute_workflow vp lp ex driver instruction)).bind (·.handoff_to) = none := by
  have hne' : plan.isEmpty = false := by
    cases plan with
    | nil => exact absurd rfl hne
    | cons a l => rfl
  have hrun := execute_actions_all_missing vp ex
    (some (vp.capture_and_analyze driver)) plan hloc
  have hres : execute_workflow vp lp ex driver instruction =
      .ok ({ instruction := instruction, driver := driver,
             ui_state := some (vp.capture_and_analyze driver), action_plan := some plan,
             execution_success := some true, handoff_to := none }, 2) := by
    rw [execute_workflow, show (10 : ℕ) + 1 = 8 + 1 + 1 + 1 from rfl]
    simp [workflow_loop, run_agent, perception_execute, planning_execute,
      execution_execute, hd, hi, hu, hp, hne', hrun]
  rw [hres]
  refine ⟨rfl, rfl, rfl, rfl⟩

/-- Perception collaborator for the C10 witness: no element ever resolves to a
locator. -/
def vpNoLoc : VisualPerception :=
  { capture_and_analyze := fun _ => "ui", get_element_locator := fun _ _ => none }

/-- Planner for the C10 witness: a one-step plan. -/
def lpOneStep : LLMPlanner :=
  { generate_action_plan := fun _ _ => [tapStep],
    reflect_and_correct := fun _ _ _ _ => [] }

/-- Witness for C10: with a one-tap plan whose element has no locator, the
workflow ends after 2 handoffs reporting success and no error. -/
theorem missing_locators_complete_successfully_witness :
    handoffsOf (execute_workflow vpNoLoc lpOneStep exFail (some "d") "go") = 2 ∧
    (finalCtx (execute_workflow vpNoLoc lpOneStep exFail (some "d") "go")).map
      (·.execution_success) = some (some true) := by
  have h := missing_locators_complete_successfully vpNoLoc lpOneStep exFail
    (some "d") "go" [tapStep] (by decide) (by decide) (by decide) rfl (by decide)
    (fun step _ => rfl)
  exact ⟨h.1, h.2.1⟩

end AutoRL
